import Mathlib

set_option linter.unusedVariables false

/-!
Verification development for the WP1 prototype work engine (`prototype.py`).

The program dispatches a list of work items (Python dicts with an `engine` and a
`benchmark` field) over an `MPIPoolExecutor`.  Each item is processed by
`perform_work`, which emits one trace line, looks up the engine behavior in the
global `ENGINES` table, invokes it on the benchmark identifier, and returns the
instructions dict updated in place with an `output` field.  `executor.map`
yields one result per submitted item in submission order; an exception raised
inside a task is re-raised at the caller when its result is reached.

The embedding below models Python dicts as ordered association lists with
first-occurrence lookup and Python `dict.update` semantics, engine behaviors as
fallible functions (`String → Except Fault String`), the ambient MPI context
(rank, size, processor name) as an explicit `WorkerCtx` value, and the
caller-visible result sequence of `executor.map` as in-order collection that
aborts at the first task fault.
-/

/-- A Python `dict[str, str]`: ordered association list, first occurrence wins
(real Python dicts never hold duplicate keys, so lists with `Nodup` keys are the
faithful image; the operations below agree with Python on those). -/
abbrev Dict := List (String × String)

/-- Python `d.update({k: v})` / `d[k] = v`: overwrite the value at an existing
key keeping its position, otherwise append the new binding at the end. -/
def dictSet : Dict → String → String → Dict
  | [], k, v => [(k, v)]
  | (k', v') :: rest, k, v =>
    if k' = k then (k, v) :: rest else (k', v') :: dictSet rest k v

/-- Faults a task can raise: Python `KeyError` (from `ENGINES[...]` or a missing
dict field) and an arbitrary fault raised inside an engine behavior. -/
inductive Fault where
  | keyError (key : String)
  | engineFault (msg : String)
deriving DecidableEq, Repr

/-- An engine behavior: takes a benchmark identifier, returns a result value or
fails (the registry contract of the spec; the three concrete engines below are
total). -/
abbrev Behavior := String → Except Fault String

/-- The engine registry shape: a mapping from engine identifier to behavior. -/
abbrev Registry := List (String × Behavior)

/-- The ambient MPI worker context queried by `perform_work`:
`comm.Get_rank()`, `comm.Get_size()`, `MPI.Get_processor_name()`. -/
structure WorkerCtx where
  rank : Nat
  size : Nat
  name : String

/-- One trace line written by `tqdm.write` in `perform_work`: benchmark,
engine, worker rank, pool size, worker host name. -/
structure TraceRecord where
  benchmark : String
  engine : String
  rank : Nat
  size : Nat
  name : String
deriving DecidableEq, Repr

/-- Engine `engine_ilamb`: sleeps (not modelled; it cannot affect the value) and
returns the constant string of results for every benchmark. -/
def engine_ilamb (benchmark : String) : Except Fault String := .ok "_results_"

/-- Engine `engine_esmvaltool`: returns the constant results string for every benchmark. -/
def engine_esmvaltool (benchmark : String) : Except Fault String := .ok "_results_"

/-- Engine `engine_pmp`: returns the constant results string for every benchmark. -/
def engine_pmp (benchmark : String) : Except Fault String := .ok "_results_"

/-- The global registry: ILAMB, PMP and ESMValTool mapped to their engines. -/
def ENGINES : Registry :=
  [("ILAMB", engine_ilamb), ("PMP", engine_pmp), ("ESMValTool", engine_esmvaltool)]

/-- Function `perform_work` of the prototype: read the ambient worker context,
write one trace line (benchmark, engine, rank of size, processor name), run the
looked-up engine on the benchmark, then update the instructions dict in place
with an output field and return that same dict.

The module-global `ENGINES` is passed as the `engines` parameter (instantiated
with `ENGINES` for the concrete program).  The returned pair is (trace lines
emitted, outcome): a missing dict key raises KeyError inside the trace
formatting before any trace is written; an unknown engine raises KeyError after
the trace; a fault raised by the behavior propagates uncaught. -/
def perform_work (engines : Registry) (ctx : WorkerCtx) (instructions : Dict) :
    List TraceRecord × Except Fault Dict :=
  match instructions.lookup "benchmark" with
  | none => ([], .error (.keyError "benchmark"))
  | some b =>
    match instructions.lookup "engine" with
    | none => ([], .error (.keyError "engine"))
    | some e =>
      ([⟨b, e, ctx.rank, ctx.size, ctx.name⟩],
        match engines.lookup e with
        | none => .error (.keyError e)
        | some behavior =>
          match behavior b with
          | .error f => .error f
          | .ok out => .ok (dictSet instructions "output" out))

/-- The caller-visible result sequence of
`list(executor.map(perform_work, work_list))`: every submitted item is
dispatched to the pool, and results are yielded in submission order; when the
iteration reaches a task that raised, that exception is re-raised at the caller
and no further results are obtained from the iterator. -/
def collectInOrder : List (Except Fault Dict) → Except Fault (List Dict)
  | [] => .ok []
  | .error f :: _ => .error f
  | .ok r :: rest =>
    match collectInOrder rest with
    | .error f => .error f
    | .ok rs => .ok (r :: rs)

/-- Running the pool: `executor.map(perform_work, work_list)` consumed into a
list by the caller.  The worker context only feeds the trace lines; the result
collection is the in-order sequence of task outcomes. -/
def runPool (engines : Registry) (ctx : WorkerCtx) (work_list : List Dict) :
    Except Fault (List Dict) :=
  collectInOrder (work_list.map (fun d => (perform_work engines ctx d).2))

/-- A work item dict as built in `parse_ref_setup`:
`{"engine": e, "benchmark": b}`. -/
def witem (e b : String) : Dict := [("engine", e), ("benchmark", b)]

/-- The `(engine_id, benchmark_id)` fields carried by a dict. -/
def pairOf (d : Dict) : Option String × Option String :=
  (d.lookup "engine", d.lookup "benchmark")

/-- The `(engine_id, benchmark_id, success/failure-kind)` composition
fingerprint of one returned record: its pair plus whether it carries an output
(success) — failed tasks abort the run in this code, so a returned record is a
success exactly when it holds an `output` field. -/
def resultKind (d : Dict) : (Option String × Option String) × Bool :=
  (pairOf d, (d.lookup "output").isSome)

/-- The composition of a whole run outcome, as a multiset (order forgotten). -/
def runComposition (o : Except Fault (List Dict)) :
    Except Fault (Multiset ((Option String × Option String) × Bool)) :=
  o.map (fun rs => Multiset.ofList (rs.map resultKind))

/-- Modelled on the spec's words for the refinement claim: invoke the Task
Executor sequentially over the input in submission order, collecting each
TaskResult; a task fault ends the sequential run just as it ends the caller's
iteration of the pool's results. -/
def sequentialExecute (engines : Registry) (ctx : WorkerCtx) :
    List Dict → Except Fault (List Dict)
  | [] => .ok []
  | d :: ds =>
    match (perform_work engines ctx d).2 with
    | .error f => .error f
    | .ok r =>
      match sequentialExecute engines ctx ds with
      | .error f => .error f
      | .ok rs => .ok (r :: rs)

/-- A sample worker context (rank 1 of 9 on the host from the sample run). -/
def ctx0 : WorkerCtx := ⟨1, 9, "andes18.olcf.ornl.gov"⟩

/-- A worker context with pool size 1 (single-worker pool). -/
def ctx1 : WorkerCtx := ⟨0, 1, "localhost"⟩

/-! ### Helper lemmas about the dictionary model -/

/-- Updating a key makes it present with the new value. -/
theorem lookup_dictSet_self (d : Dict) (k v : String) :
    (dictSet d k v).lookup k = some v := by
  induction d with
  | nil => simp [dictSet, List.lookup]
  | cons p rest ih =>
    obtain ⟨a, b⟩ := p
    by_cases h : a = k
    · simp [dictSet, h, List.lookup]
    · have hka : (k == a) = false := beq_eq_false_iff_ne.mpr (fun hh => h hh.symm)
      simp [dictSet, h, List.lookup, hka, ih]

/-- Updating one key leaves every other key's value unchanged. -/
theorem lookup_dictSet_ne (d : Dict) (k v k' : String) (h : k' ≠ k) :
    (dictSet d k v).lookup k' = d.lookup k' := by
  induction d with
  | nil =>
    have hk : (k' == k) = false := beq_eq_false_iff_ne.mpr h
    simp [dictSet, List.lookup, hk]
  | cons p rest ih =>
    obtain ⟨a, b⟩ := p
    by_cases ha : a = k
    · subst ha
      have hk : (k' == a) = false := beq_eq_false_iff_ne.mpr h
      simp [dictSet, List.lookup, hk]
    · simp only [dictSet, if_neg ha, List.lookup]
      cases k' == a
      · exact ih
      · rfl

/-! ### Helper lemmas about the task executor -/

/-- Unfolding of `perform_work` once the two dict fields are known. -/
theorem perform_work_eq (engines : Registry) (ctx : WorkerCtx) (d : Dict)
    (b e : String)
    (hb : d.lookup "benchmark" = some b) (he : d.lookup "engine" = some e) :
    perform_work engines ctx d =
      ([⟨b, e, ctx.rank, ctx.size, ctx.name⟩],
        match engines.lookup e with
        | none => .error (.keyError e)
        | some behavior =>
          match behavior b with
          | .error f => .error f
          | .ok out => .ok (dictSet d "output" out)) := by
  unfold perform_work
  rw [hb, he]

/-- Inversion: a successful task outcome comes from present fields, a
registered engine, a successful behavior, and is the updated input dict. -/
theorem perform_work_ok_inv {engines : Registry} {ctx : WorkerCtx} {d r : Dict}
    (h : (perform_work engines ctx d).2 = .ok r) :
    ∃ b e behavior out,
      d.lookup "benchmark" = some b ∧ d.lookup "engine" = some e ∧
      engines.lookup e = some behavior ∧ behavior b = Except.ok out ∧
      r = dictSet d "output" out := by
  unfold perform_work at h
  split at h
  · simp at h
  rename_i b hb
  split at h
  · simp at h
  rename_i e he
  dsimp only at h
  split at h
  · simp at h
  rename_i behavior hg
  split at h
  · simp at h
  rename_i out hout
  simp only [Except.ok.injEq] at h
  exact ⟨b, e, behavior, out, hb, he, hg, hout, h.symm⟩

/-- A successful task outcome carries the originating work item's engine and
benchmark fields unchanged. -/
theorem perform_work_ok_pairOf {engines : Registry} {ctx : WorkerCtx}
    {d r : Dict} (h : (perform_work engines ctx d).2 = .ok r) :
    pairOf r = pairOf d := by
  obtain ⟨b, e, behavior, out, hb, he, hg, hout, hr⟩ := perform_work_ok_inv h
  subst hr
  unfold pairOf
  rw [lookup_dictSet_ne d "output" out "engine" (by decide),
      lookup_dictSet_ne d "output" out "benchmark" (by decide)]

/-- The task outcome does not depend on the worker context: rank, size and
host name only feed the trace line. -/
theorem perform_work_snd_ctx (engines : Registry) (d : Dict)
    (ctx ctx' : WorkerCtx) :
    (perform_work engines ctx d).2 = (perform_work engines ctx' d).2 := by
  unfold perform_work
  rcases d.lookup "benchmark" with _ | b
  · rfl
  rcases d.lookup "engine" with _ | e <;> rfl

/-! ### Helper lemmas about the pool run -/

/-- One step of the caller-visible run. -/
theorem runPool_cons (engines : Registry) (ctx : WorkerCtx) (d : Dict)
    (ds : List Dict) :
    runPool engines ctx (d :: ds) =
      match (perform_work engines ctx d).2 with
      | .error f => .error f
      | .ok r =>
        match runPool engines ctx ds with
        | .error f => .error f
        | .ok rs => .ok (r :: rs) := by
  unfold runPool
  simp only [List.map_cons]
  rcases (perform_work engines ctx d).2 with f | r <;> rfl

/-- A successful run maps the submitted items' field pairs positionally. -/
theorem runPool_ok_pairs {engines : Registry} {ctx : WorkerCtx}
    {items rs : List Dict} (h : runPool engines ctx items = .ok rs) :
    rs.map pairOf = items.map pairOf := by
  induction items generalizing rs with
  | nil =>
    simp only [runPool, List.map_nil, collectInOrder, Except.ok.injEq] at h
    subst h
    rfl
  | cons d ds ih =>
    rw [runPool_cons] at h
    rcases hp : (perform_work engines ctx d).2 with f | r <;> rw [hp] at h
    · simp at h
    rcases hr : runPool engines ctx ds with f | rs' <;> rw [hr] at h
    · simp at h
    simp only [Except.ok.injEq] at h
    subst h
    simp [perform_work_ok_pairOf hp, ih hr]

/-- A successful run has exactly one result per submitted item. -/
theorem runPool_ok_length {engines : Registry} {ctx : WorkerCtx}
    {items rs : List Dict} (h : runPool engines ctx items = .ok rs) :
    rs.length = items.length := by
  have hm := congrArg List.length (runPool_ok_pairs h)
  simpa using hm

/-- The whole caller-visible run outcome is independent of the worker
context. -/
theorem runPool_ctx (engines : Registry) (items : List Dict)
    (ctx ctx' : WorkerCtx) :
    runPool engines ctx items = runPool engines ctx' items := by
  unfold runPool
  congr 1
  exact List.map_congr_left (fun d _ => perform_work_snd_ctx engines d ctx ctx')

/-! ### Concrete lists used by witnesses -/

/-- Twenty copies of the same work item, as in the duplicate scenario. -/
def items20 : List Dict := List.replicate 20 (witem "PMP" "AMOC")

/-- The twenty results the pool returns for `items20`. -/
def results20 : List Dict :=
  List.replicate 20 [("engine", "PMP"), ("benchmark", "AMOC"), ("output", "_results_")]

/-- A three-item work list with a duplicated pair. -/
def items3 : List Dict := [witem "PMP" "AMOC", witem "PMP" "AMOC", witem "ILAMB" "nbp"]

/-- The results the pool returns for `items3`. -/
def results3 : List Dict :=
  [[("engine", "PMP"), ("benchmark", "AMOC"), ("output", "_results_")],
   [("engine", "PMP"), ("benchmark", "AMOC"), ("output", "_results_")],
   [("engine", "ILAMB"), ("benchmark", "nbp"), ("output", "_results_")]]

/-- A behavior that always raises a fault when invoked. -/
def badBehavior : Behavior := fun _ => .error (.engineFault "boom")

/-- A registry holding only the always-faulting behavior. -/
def badRegistry : Registry := [("BAD", badBehavior)]

/-! ### Claims -/

/-- C1 counterexample: the claim guards only against WorkerUnavailableError,
but the code can abort a run without one — a work list containing an unknown
engine makes the caller's iteration re-raise the task's KeyError (worker
unavailability is not involved: the model has no such fault at all), so the
run returns no result collection and in particular not one TaskResult per
submitted WorkItem. -/
theorem C1_counterexample :
    runPool ENGINES ctx0 [witem "PMP" "AMOC", witem "UNKNOWN" "x"] =
      .error (.keyError "UNKNOWN") ∧
    (runPool ENGINES ctx0 [witem "PMP" "AMOC", witem "UNKNOWN" "x"]).isOk =
      false :=
  ⟨rfl, rfl⟩

/-- C1 (amended): for every finite input sequence of WorkItems (repeats
included), a run of the pool that completes successfully — no task raised at
all, which in this code is strictly more than the absence of
WorkerUnavailableError, since an unknown engine or an engine fault also aborts
the run — returns exactly one TaskResult per submitted WorkItem: the result
list is as long as the work list, duplicated items yielding independent
results. -/
theorem C1_one_result_per_item (engines : Registry) (ctx : WorkerCtx)
    (items rs : List Dict) (h : runPool engines ctx items = .ok rs) :
    rs.length = items.length :=
  runPool_ok_length h

/-- Witness for C1: the duplicate scenario, the same pair twenty times,
returns exactly twenty independent results. -/
theorem C1_one_result_per_item_witness :
    runPool ENGINES ctx0 items20 = .ok results20 ∧
    results20.length = items20.length :=
  ⟨rfl, C1_one_result_per_item ENGINES ctx0 items20 results20 rfl⟩

/-- C2 counterexample: executing a WorkItem whose engine identifier is absent
from `ENGINES` does not yield a TaskResult carrying an error — the lookup
KeyError propagates out of `perform_work`, and a run containing such an item
aborts with that error instead of returning one result per item, so the
remaining items' results never reach the caller. -/
theorem C2_counterexample :
    (perform_work ENGINES ctx0 (witem "UNKNOWN" "x")).2 =
      .error (.keyError "UNKNOWN") ∧
    runPool ENGINES ctx0 [witem "PMP" "AMOC", witem "UNKNOWN" "x", witem "ILAMB" "nbp"] =
      .error (.keyError "UNKNOWN") :=
  ⟨rfl, rfl⟩

/-- C2 (amended): executing a WorkItem whose engine identifier is absent from
the registry raises the lookup KeyError out of the Task Executor; no
TaskResult is produced for it. -/
theorem C2_unknown_engine_raises (engines : Registry) (ctx : WorkerCtx)
    (d : Dict) (b e : String)
    (hb : d.lookup "benchmark" = some b) (he : d.lookup "engine" = some e)
    (hreg : engines.lookup e = none) :
    (perform_work engines ctx d).2 = .error (.keyError e) := by
  rw [perform_work_eq engines ctx d b e hb he, hreg]

/-- Witness for C2 (amended): the unknown engine item at a concrete input. -/
theorem C2_unknown_engine_raises_witness :
    (perform_work ENGINES ctx0 (witem "UNKNOWN" "x")).2 =
      .error (.keyError "UNKNOWN") :=
  C2_unknown_engine_raises ENGINES ctx0 (witem "UNKNOWN" "x") "x" "UNKNOWN"
    rfl rfl rfl

/-- C3 counterexample: at a registry whose engine behavior raises when
invoked, `perform_work` does not return a TaskResult wrapping the fault — the
fault itself propagates out of the Task Executor (the outcome is an error, not
a result). -/
theorem C3_counterexample :
    (perform_work badRegistry ctx0 (witem "BAD" "x")).2 =
      .error (.engineFault "boom") ∧
    ((perform_work badRegistry ctx0 (witem "BAD" "x")).2).isOk = false :=
  ⟨rfl, rfl⟩

/-- C3 (amended): when the looked-up engine behavior raises a fault, that
fault propagates unwrapped out of the Task Executor — `perform_work` catches
nothing, so no TaskResult is produced for the item (the robustness the spec
demands of a reimplementation is absent from this code). -/
theorem C3_engine_fault_propagates (engines : Registry) (ctx : WorkerCtx)
    (d : Dict) (b e : String) (behavior : Behavior) (f : Fault)
    (hb : d.lookup "benchmark" = some b) (he : d.lookup "engine" = some e)
    (hreg : engines.lookup e = some behavior) (hfault : behavior b = .error f) :
    (perform_work engines ctx d).2 = .error f := by
  rw [perform_work_eq engines ctx d b e hb he]
  simp only [hreg, hfault]

/-- Witness for C3 (amended): the always-faulting behavior at a concrete
input. -/
theorem C3_engine_fault_propagates_witness :
    (perform_work badRegistry ctx0 (witem "BAD" "x")).2 =
      .error (.engineFault "boom") :=
  C3_engine_fault_propagates badRegistry ctx0 (witem "BAD" "x") "x" "BAD"
    badBehavior (.engineFault "boom") rfl rfl rfl rfl

/-- C4: on every successful run, the multiset of (engine, benchmark) pairs
carried by the returned TaskResults equals the multiset of pairs of the
submitted WorkItems — each result reproduces its originating item's fields. -/
theorem C4_pair_multiset_preserved (engines : Registry) (ctx : WorkerCtx)
    (items rs : List Dict) (h : runPool engines ctx items = .ok rs) :
    Multiset.ofList (rs.map pairOf) = Multiset.ofList (items.map pairOf) :=
  congrArg Multiset.ofList (runPool_ok_pairs h)

/-- Witness for C4: a concrete three-item run with a duplicated pair. -/
theorem C4_pair_multiset_preserved_witness :
    runPool ENGINES ctx0 items3 = .ok results3 ∧
    Multiset.ofList (results3.map pairOf) = Multiset.ofList (items3.map pairOf) :=
  ⟨rfl, C4_pair_multiset_preserved ENGINES ctx0 items3 results3 rfl⟩

/-- C5 counterexample: the Task Executor does not build the TaskResult as a
separate value — it returns the submitted work-item mapping itself extended
with an output field (in the source, `instructions.update` mutates the dict in
place and returns it): the concrete item has no output field before execution
and the returned mapping is exactly that item with an output field appended. -/
theorem C5_counterexample :
    (witem "ILAMB" "nbp").lookup "output" = none ∧
    (perform_work ENGINES ctx0 (witem "ILAMB" "nbp")).2 =
      .ok (witem "ILAMB" "nbp" ++ [("output", "_results_")]) :=
  ⟨rfl, rfl⟩

/-- C5 (amended): the Task Executor returns the submitted WorkItem mapping
updated in place with an output field — not a separate value; the original
engine and benchmark fields are preserved unchanged, and the caller's own
items are untouched only because the pool serializes items to the workers. -/
theorem C5_result_is_updated_workitem (engines : Registry) (ctx : WorkerCtx)
    (d : Dict) (b e : String) (behavior : Behavior) (out : String)
    (hb : d.lookup "benchmark" = some b) (he : d.lookup "engine" = some e)
    (hreg : engines.lookup e = some behavior) (hout : behavior b = .ok out) :
    (perform_work engines ctx d).2 = .ok (dictSet d "output" out) ∧
    pairOf (dictSet d "output" out) = pairOf d := by
  constructor
  · rw [perform_work_eq engines ctx d b e hb he]
    simp only [hreg, hout]
  · unfold pairOf
    rw [lookup_dictSet_ne d "output" out "engine" (by decide),
        lookup_dictSet_ne d "output" out "benchmark" (by decide)]

/-- Witness for C5 (amended): a concrete registered item. -/
theorem C5_result_is_updated_workitem_witness :
    (perform_work ENGINES ctx0 (witem "ILAMB" "nbp")).2 =
      .ok (dictSet (witem "ILAMB" "nbp") "output" "_results_") ∧
    pairOf (dictSet (witem "ILAMB" "nbp") "output" "_results_") =
      pairOf (witem "ILAMB" "nbp") :=
  C5_result_is_updated_workitem ENGINES ctx0 (witem "ILAMB" "nbp") "nbp" "ILAMB"
    engine_ilamb "_results_" rfl rfl rfl rfl

/-- C6: with pool size 1 the pool run yields exactly the sequence obtained by
invoking the Task Executor sequentially over the input in submission order
(the spec-side sequential reference is `sequentialExecute`). -/
theorem C6_size_one_run_is_sequential (engines : Registry) (ctx : WorkerCtx)
    (items : List Dict) (h : ctx.size = 1) :
    runPool engines ctx items = sequentialExecute engines ctx items := by
  induction items with
  | nil => rfl
  | cons d ds ih =>
    rw [runPool_cons]
    unfold sequentialExecute
    rw [ih]

/-- Witness for C6: a single-worker context on a concrete work list. -/
theorem C6_size_one_run_is_sequential_witness :
    ctx1.size = 1 ∧
    runPool ENGINES ctx1 items3 = sequentialExecute ENGINES ctx1 items3 :=
  ⟨rfl, C6_size_one_run_is_sequential ENGINES ctx1 items3 rfl⟩

/-- C7: the Task Executor emits exactly one trace record, carrying exactly the
benchmark identifier, engine identifier, worker rank, pool size and worker
host name; and the trace has no effect on the outcome — the returned result is
the same under any worker context. -/
theorem C7_one_trace_no_effect (engines : Registry) (ctx ctx' : WorkerCtx)
    (d : Dict) (b e : String)
    (hb : d.lookup "benchmark" = some b) (he : d.lookup "engine" = some e) :
    (perform_work engines ctx d).1 =
      [⟨b, e, ctx.rank, ctx.size, ctx.name⟩] ∧
    (perform_work engines ctx d).2 = (perform_work engines ctx' d).2 := by
  refine ⟨?_, perform_work_snd_ctx engines d ctx ctx'⟩
  rw [perform_work_eq engines ctx d b e hb he]

/-- Witness for C7: a concrete item under two different worker contexts. -/
theorem C7_one_trace_no_effect_witness :
    (perform_work ENGINES ctx0 (witem "PMP" "AMOC")).1 =
      [⟨"AMOC", "PMP", ctx0.rank, ctx0.size, ctx0.name⟩] ∧
    (perform_work ENGINES ctx0 (witem "PMP" "AMOC")).2 =
      (perform_work ENGINES ctx1 (witem "PMP" "AMOC")).2 :=
  C7_one_trace_no_effect ENGINES ctx0 ctx1 (witem "PMP" "AMOC") "AMOC" "PMP"
    rfl rfl

/-- C8: re-running the same input through a fresh pool (any worker contexts)
and the same freshly built registry yields a run outcome with the same
(engine, benchmark, success/failure-kind) composition — the outcome is in fact
independent of the pool's contexts, since only trace lines depend on them. -/
theorem C8_rerun_same_composition (ctx ctx' : WorkerCtx) (items : List Dict) :
    runComposition (runPool ENGINES ctx items) =
      runComposition (runPool ENGINES ctx' items) := by
  rw [runPool_ctx ENGINES items ctx ctx']

/-- C9: the caller-visible result sequence preserves submission order: on a
successful run, the i-th returned result carries the engine and benchmark
fields of the i-th submitted item. -/
theorem C9_submission_order_preserved (engines : Registry) (ctx : WorkerCtx)
    (items rs : List Dict) (h : runPool engines ctx items = .ok rs)
    (i : Nat) (hi : i < rs.length) (hi' : i < items.length) :
    pairOf (rs.get ⟨i, hi⟩) = pairOf (items.get ⟨i, hi'⟩) := by
  have hm := runPool_ok_pairs h
  have h2 : (rs.map pairOf)[i]? = (items.map pairOf)[i]? := by rw [hm]
  rw [List.getElem?_map, List.getElem?_map,
      List.getElem?_eq_getElem (by simpa using hi),
      List.getElem?_eq_getElem (by simpa using hi')] at h2
  simp at h2
  simpa [List.get_eq_getElem] using h2

/-- Witness for C9: the third submitted item of a concrete run and the third
returned result carry the same pair. -/
theorem C9_submission_order_preserved_witness :
    runPool ENGINES ctx0 items3 = .ok results3 ∧
    pairOf (results3.get ⟨2, by decide⟩) = pairOf (items3.get ⟨2, by decide⟩) :=
  ⟨rfl, C9_submission_order_preserved ENGINES ctx0 items3 results3 rfl 2
    (by decide) (by decide)⟩

/-- C10: for each of the three registered engines and every benchmark string,
the Task Executor succeeds with output field equal to the results constant and
the returned record carries no error field — the registered behaviors are
constant in their benchmark argument. -/
theorem C10_registered_engines_constant (e b : String) (ctx : WorkerCtx)
    (h : e = "ILAMB" ∨ e = "PMP" ∨ e = "ESMValTool") :
    (perform_work ENGINES ctx (witem e b)).2 =
      .ok [("engine", e), ("benchmark", b), ("output", "_results_")] ∧
    ([("engine", e), ("benchmark", b), ("output", "_results_")] : Dict).lookup
        "error" = none := by
  rcases h with h | h | h <;> subst h <;> exact ⟨rfl, rfl⟩

/-- Witness for C10: the ILAMB engine on a concrete benchmark. -/
theorem C10_registered_engines_constant_witness :
    (perform_work ENGINES ctx0 (witem "ILAMB" "nbp")).2 =
      .ok [("engine", "ILAMB"), ("benchmark", "nbp"), ("output", "_results_")] ∧
    ([("engine", "ILAMB"), ("benchmark", "nbp"), ("output", "_results_")] :
        Dict).lookup "error" = none :=
  C10_registered_engines_constant "ILAMB" "nbp" ctx0 (Or.inl rfl)
